import Mathlib

/-!
Verification of the result-log / performance-monitoring core of the
TensorFlow.js demo repository.

Shallow embedding conventions:
* JS numbers are modelled as rationals; the special values produced by
  division by zero and by empty min/max spreads are modelled by the
  JSNum type (nan, Infinity, -Infinity).
* The browser timer table, the DOM, the charting library and the tensor
  engine are external; they are modelled only through the effects the
  source code observes (timer handles, opaque tensor handles, memory
  readings passed in as parameters).
* Source files embedded here: js/utils/performance-monitor.js,
  js/core/tensor-utils.js, js/utils/export-utils.js and the demo page
  script defining TensorOperationsDemo.
-/

/-- One recorded measurement, as built by PerformanceMonitor.recordMetric
(performance-monitor.js, lines 81-97). The JS Date timestamp is modelled
as a natural-number clock reading. -/
structure Metric where
  operation : String
  executionTime : ℚ
  memoryBefore : ℚ
  memoryAfter : ℚ
  memoryDelta : ℚ
  timestamp : ℕ
deriving DecidableEq, Repr

/-- State of a PerformanceMonitor instance together with the browser's
timer table. The fields metrics, isMonitoring and updateInterval are the
instance fields of the class; activeTimers and nextTimer model the
environment's view of setInterval / clearInterval (each setInterval call
returns a fresh handle and registers one interval timer). -/
structure MonitorState where
  metrics : List Metric
  isMonitoring : Bool
  updateInterval : Option ℕ
  activeTimers : List ℕ
  nextTimer : ℕ
deriving DecidableEq, Repr

/-- A freshly constructed PerformanceMonitor (constructor, lines 7-11). -/
def initMonitor : MonitorState :=
  { metrics := [], isMonitoring := false, updateInterval := none,
    activeTimers := [], nextTimer := 0 }

/-- PerformanceMonitor.start (lines 16-23): early return when already
monitoring, otherwise set the flag and schedule one interval timer. -/
def startM (s : MonitorState) : MonitorState :=
  if s.isMonitoring then s
  else
    { s with isMonitoring := true,
             updateInterval := some s.nextTimer,
             activeTimers := s.activeTimers ++ [s.nextTimer],
             nextTimer := s.nextTimer + 1 }

/-- PerformanceMonitor.stop (lines 28-36): early return when not
monitoring, otherwise reset the flag and, if an interval handle is held,
clear that timer and null the handle. -/
def stopM (s : MonitorState) : MonitorState :=
  if s.isMonitoring = false then s
  else
    match s.updateInterval with
    | some t =>
        { s with isMonitoring := false, updateInterval := none,
                 activeTimers := s.activeTimers.erase t }
    | none => { s with isMonitoring := false }

/-- The push-then-bound step of recordMetric (lines 91-96): append the
metric, then if the length exceeds 100 drop the single oldest entry. -/
def pushCap (l : List Metric) (m : Metric) : List Metric :=
  let l2 := l ++ [m]
  if 100 < l2.length then l2.tail else l2

/-- Arguments of one recordMetric call, plus the Date value read at the
call. -/
structure RecordArgs where
  operation : String
  executionTime : ℚ
  memoryBefore : ℚ
  memoryAfter : ℚ
  timestamp : ℕ
deriving DecidableEq, Repr

/-- The metric object constructed by recordMetric (lines 82-89). -/
def mkMetric (a : RecordArgs) : Metric :=
  { operation := a.operation, executionTime := a.executionTime,
    memoryBefore := a.memoryBefore, memoryAfter := a.memoryAfter,
    memoryDelta := a.memoryAfter - a.memoryBefore,
    timestamp := a.timestamp }

/-- PerformanceMonitor.recordMetric (lines 81-97). -/
def recordMetric (s : MonitorState) (a : RecordArgs) : MonitorState :=
  { s with metrics := pushCap s.metrics (mkMetric a) }

/-- PerformanceMonitor.clear (lines 135-138); updateDisplay only touches
the DOM. -/
def clearM (s : MonitorState) : MonitorState :=
  { s with metrics := [] }

/-- The projection of a metric included in the summary's operations list
(lines 123-128). -/
structure OpView where
  operation : String
  executionTime : ℚ
  memoryDelta : ℚ
  timestamp : ℕ
deriving DecidableEq, Repr

/-- The object returned by getSummary (lines 103-130). In the empty case
the source returns an object without the operations key; that absent key
is modelled as the empty list. -/
structure Summary where
  totalOperations : ℕ
  averageExecutionTime : ℚ
  totalMemoryUsed : ℚ
  peakMemoryUsage : ℚ
  operations : List OpView
deriving DecidableEq, Repr

/-- Math.max over a nonempty list of values. -/
def listMax1 (h : ℚ) (t : List ℚ) : ℚ := t.foldl max h

/-- PerformanceMonitor.getSummary (lines 103-130): all-zero summary for
an empty metric list, otherwise count, mean execution time, summed
memory delta and peak memoryAfter over the retained metrics. -/
def getSummary (s : MonitorState) : Summary :=
  match s.metrics with
  | [] =>
      { totalOperations := 0, averageExecutionTime := 0,
        totalMemoryUsed := 0, peakMemoryUsage := 0, operations := [] }
  | m :: rest =>
      let all := m :: rest
      { totalOperations := all.length,
        averageExecutionTime :=
          (all.foldl (fun acc x => acc + x.executionTime) 0) / (all.length : ℚ),
        totalMemoryUsed := all.foldl (fun acc x => acc + x.memoryDelta) 0,
        peakMemoryUsage := listMax1 m.memoryAfter (rest.map (fun x => x.memoryAfter)),
        operations := all.map (fun x =>
          { operation := x.operation, executionTime := x.executionTime,
            memoryDelta := x.memoryDelta, timestamp := x.timestamp }) }

/-- A sequence of recordMetric calls applied in order. -/
def recordAll (s : MonitorState) (args : List RecordArgs) : MonitorState :=
  args.foldl recordMetric s

/-- The method calls through which a monitor state is reachable from the
fresh instance. -/
inductive MonOp where
  | start : MonOp
  | stop : MonOp
  | record : RecordArgs → MonOp
  | clear : MonOp

/-- Dispatch of one method call on the monitor. -/
def applyOp (s : MonitorState) : MonOp → MonitorState
  | MonOp.start => startM s
  | MonOp.stop => stopM s
  | MonOp.record a => recordMetric s a
  | MonOp.clear => clearM s

/-- States reachable from the fresh monitor by method calls. -/
inductive Reachable : MonitorState → Prop where
  | init : Reachable initMonitor
  | step : ∀ s o, Reachable s → Reachable (applyOp s o)

/-- Timer-discipline invariant: the monitoring flag, the stored interval
handle and the environment's timer table stay in sync, with at most one
scheduled timer, which is exactly the stored handle. -/
def timerInv (s : MonitorState) : Prop :=
  (s.isMonitoring = true ↔ s.updateInterval.isSome = true)
  ∧ s.activeTimers.length = (if s.isMonitoring then 1 else 0)
  ∧ ∀ t, s.updateInterval = some t → s.activeTimers = [t]

theorem timerInv_init : timerInv initMonitor := by
  refine ⟨by simp [initMonitor], by simp [initMonitor], ?_⟩
  intro t h
  simp [initMonitor] at h

theorem timerInv_step (s : MonitorState) (o : MonOp) (h : timerInv s) :
    timerInv (applyOp s o) := by
  obtain ⟨h1, h2, h3⟩ := h
  cases o with
  | start =>
      by_cases hm : s.isMonitoring
      · simp [applyOp, startM, hm]
        exact ⟨h1, h2, h3⟩
      · have hlen : s.activeTimers.length = 0 := by simp [h2, hm]
        have hnil : s.activeTimers = [] := List.length_eq_zero.mp hlen
        refine ⟨by simp [applyOp, startM, hm], ?_, ?_⟩
        · simp [applyOp, startM, hm, hnil]
        · intro t ht
          simp [applyOp, startM, hm] at ht
          simp [applyOp, startM, hm, hnil, ht]
  | stop =>
      by_cases hm : s.isMonitoring
      · have hsome : s.updateInterval.isSome = true := h1.mp hm
        obtain ⟨t, ht⟩ := Option.isSome_iff_exists.mp hsome
        have htimers : s.activeTimers = [t] := h3 t ht
        refine ⟨?_, ?_, ?_⟩
        · simp [applyOp, stopM, hm, ht]
        · simp [applyOp, stopM, hm, ht, htimers, List.erase_cons]
        · intro u hu
          simp [applyOp, stopM, hm, ht] at hu
      · have : s.isMonitoring = false := by simpa using hm
        simp [applyOp, stopM, this]
        exact ⟨h1, h2, h3⟩
  | record a =>
      exact ⟨by simpa [applyOp, recordMetric] using h1,
             by simpa [applyOp, recordMetric] using h2,
             by simpa [applyOp, recordMetric] using h3⟩
  | clear =>
      exact ⟨by simpa [applyOp, clearM] using h1,
             by simpa [applyOp, clearM] using h2,
             by simpa [applyOp, clearM] using h3⟩

theorem reachable_timerInv (s : MonitorState) (h : Reachable s) : timerInv s := by
  induction h with
  | init => exact timerInv_init
  | step s o _ ih => exact timerInv_step s o ih

/-- C10: start and stop of the periodic sampler are idempotent (a start
while monitoring and a stop while idle change nothing), and in every
reachable state at most one interval timer exists, scheduled exactly
when the monitoring flag is set. -/
theorem c10_sampler_idempotent (s : MonitorState) (h : Reachable s) :
    (s.isMonitoring = true → startM s = s)
    ∧ (s.isMonitoring = false → stopM s = s)
    ∧ s.activeTimers.length ≤ 1
    ∧ (s.isMonitoring = true ↔ s.updateInterval.isSome = true)
    ∧ s.activeTimers.length = (if s.isMonitoring then 1 else 0) := by
  obtain ⟨h1, h2, h3⟩ := reachable_timerInv s h
  refine ⟨?_, ?_, ?_, h1, h2⟩
  · intro hm; simp [startM, hm]
  · intro hm; simp [stopM, hm]
  · rw [h2]
    by_cases hm : s.isMonitoring <;> simp [hm]

/-- Witness for C10 at the state reached by one start call. -/
theorem c10_sampler_idempotent_witness :
    (startM initMonitor).activeTimers.length ≤ 1
    ∧ startM (startM initMonitor) = startM initMonitor := by
  have h := c10_sampler_idempotent (applyOp initMonitor MonOp.start)
    (Reachable.step initMonitor MonOp.start Reachable.init)
  exact ⟨h.2.2.1, h.1 rfl⟩

/-- pushCap keeps exactly the last 100 elements of the appended list,
provided the accumulator already respects the capacity. -/
theorem foldl_pushCap_eq (ms : List Metric) :
    ∀ l : List Metric, l.length ≤ 100 →
      ms.foldl pushCap l = (l ++ ms).drop ((l ++ ms).length - 100) := by
  induction ms with
  | nil =>
      intro l h
      have : l.length - 100 = 0 := Nat.sub_eq_zero_of_le h
      simp [this]
  | cons m ms ih =>
      intro l h
      rw [List.foldl_cons]
      by_cases hl : l.length = 100
      · have hne : l ≠ [] := by
          intro hnil
          rw [hnil] at hl
          simp at hl
        obtain ⟨a, t, rfl⟩ : ∃ a t, l = a :: t := by
          cases l with
          | nil => exact absurd rfl hne
          | cons a t => exact ⟨a, t, rfl⟩
        have ht : t.length = 99 := by
          simp only [List.length_cons] at hl
          omega
        have hpush : pushCap ((a : Metric) :: t) m = t ++ [m] := by
          simp only [pushCap]
          split
          · rfl
          · rename_i hc
            exfalso
            apply hc
            simp only [List.length_append, List.length_cons, List.length_nil, ht]
            omega
        rw [hpush]
        have hlen2 : (t ++ [m]).length ≤ 100 := by simp [ht]
        rw [ih (t ++ [m]) hlen2]
        have e1 : (t ++ [m]) ++ ms = t ++ m :: ms := by simp
        have e2 : ((a : Metric) :: t) ++ m :: ms = a :: (t ++ m :: ms) := by simp
        rw [e1, e2]
        have l1 : (t ++ m :: ms).length - 100 = ms.length := by
          simp only [List.length_append, List.length_cons, ht]
          omega
        have l2 : ((a : Metric) :: (t ++ m :: ms)).length - 100 = ms.length + 1 := by
          simp only [List.length_append, List.length_cons, ht]
          omega
        rw [l1, l2, List.drop_succ_cons]
      · have hlt : l.length < 100 := lt_of_le_of_ne h hl
        have hpush : pushCap l m = l ++ [m] := by
          simp only [pushCap]
          split
          · rename_i hc
            exfalso
            simp only [List.length_append, List.length_cons, List.length_nil] at hc
            omega
          · rfl
        rw [hpush]
        have hlen2 : (l ++ [m]).length ≤ 100 := by
          simp
          omega
        rw [ih (l ++ [m]) hlen2]
        simp

/-- C1: starting from a fresh recorder, any sequence of record calls
leaves exactly the most recent (at most 100) constructed metrics, in
insertion order: the retained list is the input sequence with its oldest
entries dropped, and its length is min N 100. -/
theorem c1_metricRecorder_fifo (args : List RecordArgs) :
    (recordAll initMonitor args).metrics
        = (args.map mkMetric).drop (args.length - 100)
    ∧ (recordAll initMonitor args).metrics.length = min args.length 100 := by
  have hfold : (recordAll initMonitor args).metrics
      = (args.map mkMetric).foldl pushCap [] := by
    suffices hgen : ∀ (s : MonitorState) (as : List RecordArgs),
        (recordAll s as).metrics = (as.map mkMetric).foldl pushCap s.metrics by
      simpa [initMonitor] using hgen initMonitor args
    intro s as
    induction as generalizing s with
    | nil => rfl
    | cons a as ih =>
        rw [recordAll, List.foldl_cons, List.map_cons, List.foldl_cons]
        exact ih (recordMetric s a)
  have hmain := foldl_pushCap_eq (args.map mkMetric) [] (by simp)
  simp only [List.nil_append] at hmain
  constructor
  · rw [hfold, hmain, List.length_map]
  · rw [hfold, hmain, List.length_drop, List.length_map]
    omega

/-- The all-zero summary returned on an empty metric list. -/
def zeroSummary : Summary :=
  { totalOperations := 0, averageExecutionTime := 0,
    totalMemoryUsed := 0, peakMemoryUsage := 0, operations := [] }

/-- C6: getSummary on an empty recorder returns the all-zero summary;
after recording one metric with executionTime 5, memoryBefore 100 and
memoryAfter 150 it returns totals (1, 5, 50, 150); and it is a pure
function of the current metric list (equal metric lists give equal
summaries, so repeated calls agree and nothing is mutated). -/
theorem c6_summary (s : MonitorState) (hs : s.metrics = []) :
    getSummary s = zeroSummary
    ∧ ((getSummary (recordMetric initMonitor
          { operation := "op", executionTime := 5, memoryBefore := 100,
            memoryAfter := 150, timestamp := 0 })).totalOperations = 1
      ∧ (getSummary (recordMetric initMonitor
          { operation := "op", executionTime := 5, memoryBefore := 100,
            memoryAfter := 150, timestamp := 0 })).averageExecutionTime = 5
      ∧ (getSummary (recordMetric initMonitor
          { operation := "op", executionTime := 5, memoryBefore := 100,
            memoryAfter := 150, timestamp := 0 })).totalMemoryUsed = 50
      ∧ (getSummary (recordMetric initMonitor
          { operation := "op", executionTime := 5, memoryBefore := 100,
            memoryAfter := 150, timestamp := 0 })).peakMemoryUsage = 150)
    ∧ ∀ s1 s2 : MonitorState, s1.metrics = s2.metrics →
        getSummary s1 = getSummary s2 := by
  refine ⟨?_, ?_, ?_⟩
  · unfold getSummary
    rw [hs]
    rfl
  · refine ⟨rfl, ?_, ?_, rfl⟩
    · show ((0 : ℚ) + 5) / ((1 : ℕ) : ℚ) = 5
      norm_num
    · show (0 : ℚ) + (150 - 100) = 50
      norm_num
  · intro s1 s2 h
    unfold getSummary
    rw [h]

/-- A monitor state with an empty metric list but a running sampler,
used to exercise the C6 theorem away from the fresh state. -/
def emptyMetricsRunning : MonitorState :=
  { metrics := [], isMonitoring := true, updateInterval := some 7,
    activeTimers := [7], nextTimer := 8 }

/-- Witness for C6 at a concrete empty-recorder state and a concrete
pair of states sharing the same metric list. -/
theorem c6_summary_witness :
    getSummary emptyMetricsRunning = zeroSummary
    ∧ getSummary emptyMetricsRunning = getSummary initMonitor :=
  ⟨(c6_summary emptyMetricsRunning rfl).1,
   (c6_summary initMonitor rfl).2.2 emptyMetricsRunning initMonitor rfl⟩

/-- State of the external tensor engine as observed by the demo code:
a fresh-id allocator, the handles created so far, and the log of calls
to the engine's dispose primitive (one entry per underlying release). -/
structure TfState where
  nextId : ℕ
  allocated : List ℕ
  disposeLog : List ℕ
deriving DecidableEq, Repr

/-- The engine state at page load. -/
def initTf : TfState := { nextId := 0, allocated := [], disposeLog := [] }

/-- Allocation of one tensor handle by a tf call. -/
def tfAlloc (s : TfState) : ℕ × TfState :=
  (s.nextId,
   { s with nextId := s.nextId + 1, allocated := s.allocated ++ [s.nextId] })

/-- One opaque tensor-library call (creation or derived operation). The
oracle names the index of the call that raises, together with the raised
message; every other call allocates and returns a fresh handle. A failing
call allocates nothing. -/
def tfOp (oracle : Option (ℕ × String)) (s : TfState) :
    Except String ℕ × TfState :=
  match oracle with
  | some (k, msg) =>
      if k = s.nextId then (Except.error msg, s)
      else (Except.ok (tfAlloc s).1, (tfAlloc s).2)
  | none => (Except.ok (tfAlloc s).1, (tfAlloc s).2)

/-- A tensor handle is disposed once it appears in the dispose log. -/
def isDisposed (s : TfState) (h : ℕ) : Bool := h ∈ s.disposeLog

/-- The engine's dispose primitive. -/
def tfDispose (s : TfState) (h : ℕ) : TfState :=
  { s with disposeLog := s.disposeLog ++ [h] }

/-- TensorUtils.safeDispose (tensor-utils.js, lines 42-48): for each
handle, dispose it only when it is present and not already disposed. -/
def safeDispose (handles : List ℕ) (s : TfState) : TfState :=
  handles.foldl (fun st h => if isDisposed st h then st else tfDispose st h) s

/-- Opaque stand-in for the string rendering of a tensor handle
(tensor.toString in the source). -/
def tensorStr (id : ℕ) : String := "Tensor(" ++ toString id ++ ")"

/-- One entry of the demo's results array (addResult, demo script lines
65-68). -/
structure ResultEntry where
  title : String
  content : String
  timestamp : ℕ
deriving DecidableEq, Repr

/-- State of the TensorOperationsDemo page: the tensor engine, the
results array, the (never written) performance-monitor metric list, and
the Date clock. -/
structure DemoState where
  tf : TfState
  results : List ResultEntry
  metrics : List Metric
  clock : ℕ
deriving DecidableEq, Repr

/-- A fresh demo page session. -/
def initDemo : DemoState :=
  { tf := initTf, results := [], metrics := [], clock := 0 }

/-- TensorOperationsDemo.addResult (lines 65-68): push an entry with the
current Date; updateResults only touches the DOM. -/
def addResult (d : DemoState) (title content : String) : DemoState :=
  { d with results := d.results ++ [⟨title, content, d.clock⟩],
           clock := d.clock + 1 }

/-- The narrative line appended for one demo step (the source writes the
operation name, the printed input tensor and the printed output
tensor). -/
def stepLine (opName : String) (a b : ℕ) : String :=
  opName ++ ":\nBefore: " ++ tensorStr a ++ "\nAfter: " ++ tensorStr b ++ "\n\n"

/-- The nine derived operations of runTensorShape (demo script lines
112-147), in source order: each step creates a tensor and applies the
named operation to it. -/
def shapeOps : List String :=
  ["asScalar", "flatten", "as1D", "as2D", "as3D", "as4D", "as5D",
   "expandDims", "squeeze"]

/-- The fixed, named sequence of tensor steps of runTensorShape: for each
operation name, create a tensor (one engine call) and apply the derived
operation (a second engine call), accumulating the created handles and
the narrative; the first raising call aborts the sequence with its
message and discards the narrative, as the source's local content
variable is lost when the catch runs. -/
def runShapeSteps (oracle : Option (ℕ × String)) :
    List String → TfState → List ℕ → String →
      Except String (List ℕ) × TfState × String
  | [], s, acc, narr => (Except.ok acc, s, narr)
  | op :: rest, s, acc, narr =>
      match tfOp oracle s with
      | (Except.error e, s1) => (Except.error e, s1, narr)
      | (Except.ok a, s1) =>
          match tfOp oracle s1 with
          | (Except.error e, s2) => (Except.error e, s2, narr)
          | (Except.ok b, s2) =>
              runShapeSteps oracle rest s2 (acc ++ [a, b])
                (narr ++ stepLine op a b)

/-- The content header of runTensorShape (line 109). -/
def shapeHeader : String := "=== TENSOR SHAPE OPERATIONS ===\n\n"

/-- The trailing execution-time and memory lines of the narrative
(lines 157-159); the clock and memory readings they print are opaque. -/
def shapeFooter : String :=
  "Execution time: (elapsed)ms\nMemory usage: (bytes) KB"

/-- TensorOperationsDemo.runTensorShape (demo script lines 105-166): run
the nine tensor steps; on success update the chart (DOM only), release
every created handle through safeDispose, append the footer and log the
narrative under the demo name; on any raised failure the catch block
logs one entry titled Error carrying the message, releasing nothing.
The failure never escapes to the caller: the method always returns a
demo state. The performance monitor is never touched. -/
def runTensorShape (oracle : Option (ℕ × String)) (d : DemoState) : DemoState :=
  match runShapeSteps oracle shapeOps d.tf [] shapeHeader with
  | (Except.ok handles, s, narr) =>
      let s2 := safeDispose handles s
      addResult { d with tf := s2 } "Shape Operations" (narr ++ shapeFooter)
  | (Except.error msg, s, _) =>
      addResult { d with tf := s } "Error"
        ("Error in shape operations: " ++ msg)

/-- TensorOperationsDemo.formatResults (lines 74-78): each entry rendered
as a delimiter line with the title, then the content and a blank-line
separator, joined in insertion order. -/
def formatResults (results : List ResultEntry) : String :=
  String.join (results.map (fun r =>
    "=== " ++ r.title ++ " ===\n" ++ r.content ++ "\n\n"))

/-- formatResults as invoked on the demo instance. -/
def formatResultsD (d : DemoState) : String := formatResults d.results

/-- The clearResults handler (demo script lines 435-438): empties the
results array; updateResults only touches the DOM. -/
def clearResults (d : DemoState) : DemoState := { d with results := [] }

/-- The step sequence never disposes anything: whatever state it stops
in, the dispose log is the one it started from. -/
theorem runShapeSteps_disposeLog (oracle : Option (ℕ × String)) :
    ∀ (ops : List String) (s : TfState) (acc : List ℕ) (narr : String),
      ((runShapeSteps oracle ops s acc narr).2.1).disposeLog = s.disposeLog := by
  intro ops
  induction ops with
  | nil => intro s acc narr; rfl
  | cons op rest ih =>
      intro s acc narr
      have hop : ∀ u : TfState, ((tfOp oracle u).2).disposeLog = u.disposeLog := by
        intro u
        unfold tfOp
        match oracle with
        | none => rfl
        | some (k, msg) =>
            by_cases hk : k = u.nextId
            · simp [hk]
            · simp [hk, tfAlloc]
      rw [runShapeSteps]
      rcases e1 : tfOp oracle s with ⟨exc1, s1⟩
      have hs1 : s1.disposeLog = s.disposeLog := by
        have := hop s
        rw [e1] at this
        exact this
      cases exc1 with
      | error e => simpa using hs1
      | ok a =>
          rcases e2 : tfOp oracle s1 with ⟨exc2, s2⟩
          have hs2 : s2.disposeLog = s1.disposeLog := by
            have := hop s1
            rw [e2] at this
            exact this
          cases exc2 with
          | error e => simp [e2]; rw [hs2, hs1]
          | ok b => simp [e2]; rw [ih, hs2, hs1]

/-- Counterexample to C3: when the fifth engine call raises (the middle
of the nine-step sequence), the invocation finishes with the four
handles of the first two steps acquired and the dispose log empty: they
were not released at all, let alone exactly once. -/
theorem c3_scoped_release_counterexample :
    (runTensorShape (some (4, "boom")) initDemo).tf.allocated = [0, 1, 2, 3]
    ∧ (runTensorShape (some (4, "boom")) initDemo).tf.disposeLog = [] := by
  constructor <;> rfl

/-- C3 as amended: on the success path every handle acquired during the
sequence is released exactly once (the dispose log counts each allocated
handle once); on any failure path the catch block releases nothing, so
the dispose log stays empty and earlier-acquired handles stay live. -/
theorem c3_scoped_release (oracle : Option (ℕ × String)) :
    (∀ h ∈ (runTensorShape none initDemo).tf.allocated,
        ((runTensorShape none initDemo).tf.disposeLog).count h = 1)
    ∧ (∀ msg, (runShapeSteps oracle shapeOps initDemo.tf [] shapeHeader).1
          = Except.error msg →
        (runTensorShape oracle initDemo).tf.disposeLog = []) := by
  constructor
  · decide
  · intro msg h
    unfold runTensorShape
    rcases e : runShapeSteps oracle shapeOps initDemo.tf [] shapeHeader
      with ⟨exc, s, narr⟩
    have hdl : s.disposeLog = initDemo.tf.disposeLog := by
      have := runShapeSteps_disposeLog oracle shapeOps initDemo.tf [] shapeHeader
      rw [e] at this
      exact this
    rw [e] at h
    simp at h
    cases exc with
    | ok v => simp at h
    | error e2 =>
        simp [addResult]
        rw [hdl]
        rfl

/-- Witness for C3 at the success run and at the concrete failing run
used in the counterexample's neighbourhood (first call raising). -/
theorem c3_scoped_release_witness :
    (∀ h ∈ (runTensorShape none initDemo).tf.allocated,
        ((runTensorShape none initDemo).tf.disposeLog).count h = 1)
    ∧ (runTensorShape (some (0, "fail")) initDemo).tf.disposeLog = [] :=
  ⟨(c3_scoped_release none).1,
   (c3_scoped_release (some (0, "fail"))).2 "fail" rfl⟩

/-- Counterexample to C4: a successful invocation on a fresh session
appends its result entry, yet the metric list stays empty — no
MetricRecorder.record call happens anywhere in the demo method. -/
theorem c4_success_metrics_counterexample :
    (runTensorShape none initDemo).results.length = 1
    ∧ (runTensorShape none initDemo).metrics = [] := by
  constructor <;> rfl

/-- C4 as amended: on successful completion the orchestrator appends
the accumulated narrative to the result log under the demo name, but it
does not call MetricRecorder.record — the metric list is left exactly as
it was, whatever results, metrics and clock the session already holds. -/
theorem c4_success_effects (rs : List ResultEntry) (ms : List Metric) (c : ℕ) :
    (runTensorShape none { tf := initTf, results := rs, metrics := ms,
                           clock := c }).metrics = ms
    ∧ (runTensorShape none { tf := initTf, results := rs, metrics := ms,
                             clock := c }).results
      = rs ++ [⟨"Shape Operations",
          (runShapeSteps none shapeOps initTf [] shapeHeader).2.2
            ++ shapeFooter, c⟩] :=
  ⟨rfl, rfl⟩

/-- C5: whenever a step of the sequence raises with message msg, the
invocation returns normally (the failure is not re-thrown: the method is
total) and its only effect on the logs is one appended entry titled
Error whose content extends the message; the metric list and every
previously recorded result are untouched. -/
theorem c5_failure_logging (d : DemoState) (oracle : Option (ℕ × String))
    (msg : String)
    (h : (runShapeSteps oracle shapeOps d.tf [] shapeHeader).1
        = Except.error msg) :
    (runTensorShape oracle d).results
        = d.results ++ [⟨"Error", "Error in shape operations: " ++ msg, d.clock⟩]
    ∧ (runTensorShape oracle d).metrics = d.metrics
    ∧ ∃ pre post, "Error in shape operations: " ++ msg = pre ++ msg ++ post := by
  refine ⟨?_, ?_, "Error in shape operations: ", "", by simp⟩
  · unfold runTensorShape
    rcases e : runShapeSteps oracle shapeOps d.tf [] shapeHeader with ⟨exc, s, narr⟩
    rw [e] at h
    simp at h
    cases exc with
    | ok v => simp at h
    | error e2 =>
        simp at h
        subst h
        rfl
  · unfold runTensorShape
    rcases e : runShapeSteps oracle shapeOps d.tf [] shapeHeader with ⟨exc, s, narr⟩
    rw [e] at h
    simp at h
    cases exc with
    | ok v => simp at h
    | error e2 => rfl

/-- Witness for C5: the first engine call of a fresh session raising
with message boom yields exactly the one Error entry and no metrics. -/
theorem c5_failure_logging_witness :
    (runTensorShape (some (0, "boom")) initDemo).results
        = [⟨"Error", "Error in shape operations: boom", 0⟩]
    ∧ (runTensorShape (some (0, "boom")) initDemo).metrics = [] := by
  have h := c5_failure_logging initDemo (some (0, "boom")) "boom" rfl
  refine ⟨?_, h.2.1⟩
  rw [h.1]
  rfl

/-- C7: formatAll is a pure function of the entry list — two demo states
with the same results array format identically (so two calls with no
intervening append are byte-identical) — and after clearResults it
returns the empty string. -/
theorem c7_formatResults_pure (d : DemoState) :
    formatResultsD (clearResults d) = ""
    ∧ ∀ d1 d2 : DemoState, d1.results = d2.results →
        formatResultsD d1 = formatResultsD d2 := by
  refine ⟨rfl, ?_⟩
  intro d1 d2 h
  unfold formatResultsD
  rw [h]

/-- Witness for C7: clearing a session holding one entry empties the
rendering, and two distinct states sharing a results array render the
same text. -/
theorem c7_formatResults_pure_witness :
    formatResultsD (clearResults (addResult initDemo "A" "b")) = ""
    ∧ formatResultsD (addResult initDemo "A" "b")
        = formatResultsD { tf := initTf, results := [⟨"A", "b", 0⟩],
                           metrics := [], clock := 9 } :=
  ⟨(c7_formatResults_pure (addResult initDemo "A" "b")).1,
   (c7_formatResults_pure initDemo).2 (addResult initDemo "A" "b")
     { tf := initTf, results := [⟨"A", "b", 0⟩], metrics := [], clock := 9 } rfl⟩

/-- JS numeric results that can leave the finite range: NaN from 0/0,
Infinity from an empty Math.min spread, -Infinity from an empty Math.max
spread. -/
inductive JSNum where
  | nan : JSNum
  | inf : JSNum
  | neginf : JSNum
  | fin : ℚ → JSNum
deriving DecidableEq, Repr

/-- JS division of a sum of samples by their count: with zero samples
the sum is 0 and 0/0 evaluates to NaN; otherwise it is the finite
quotient (float rounding abstracted to exact rationals). -/
def jsRatio (s : ℚ) (n : ℕ) : JSNum :=
  if n = 0 then JSNum.nan else JSNum.fin (s / (n : ℚ))

/-- Math.min over a spread list: Infinity when the list is empty. -/
def jsMinList : List ℚ → JSNum
  | [] => JSNum.inf
  | h :: t => JSNum.fin (t.foldl min h)

/-- Math.max over a spread list: -Infinity when the list is empty. -/
def jsMaxList : List ℚ → JSNum
  | [] => JSNum.neginf
  | h :: t => JSNum.fin (t.foldl max h)

/-- The object returned by TensorUtils.performance.benchmark
(tensor-utils.js, lines 205-211). -/
structure BenchmarkResult where
  averageTime : JSNum
  minTime : JSNum
  maxTime : JSNum
  memoryDelta : ℚ
  times : List ℚ
deriving DecidableEq, Repr

/-- TensorUtils.performance.benchmark (tensor-utils.js, lines 189-212):
reads memory once before and once after the loop, runs the operation
once per loop iteration collecting one elapsed-time sample per call
(the sample of call i is supplied by the opTime oracle), then reduces
the samples. The source validates nothing and throws nothing of its
own: the function is total, and with zero iterations the operation is
never invoked (times stays empty, one sample per invocation), the
average is 0/0 and the min/max spreads are empty. -/
def benchmark (opTime : ℕ → ℚ) (iterations : ℕ) (memBefore memAfter : ℚ) :
    BenchmarkResult :=
  let times := (List.range iterations).map opTime
  { averageTime := jsRatio (times.foldl (fun a b => a + b) 0) times.length,
    minTime := jsMinList times,
    maxTime := jsMaxList times,
    memoryDelta := memAfter - memBefore,
    times := times }

/-- Counterexample to C2: benchmark with zero iterations does not fail
with any InvalidArgument condition — it returns an ordinary result — and
that result's averageTime is NaN (minTime Infinity, maxTime -Infinity),
exactly the divide-by-zero outcome the claim rules out. -/
theorem c2_zero_iterations_counterexample :
    (benchmark (fun _ => 2) 0 100 100).averageTime = JSNum.nan
    ∧ (benchmark (fun _ => 2) 0 100 100).times = []
    ∧ (benchmark (fun _ => 2) 0 100 100).minTime = JSNum.inf
    ∧ (benchmark (fun _ => 2) 0 100 100).maxTime = JSNum.neginf :=
  ⟨rfl, rfl, rfl, rfl⟩

/-- C2 as amended: for every operation and memory readings, a benchmark
call with iterations = 0 returns normally (no error is signalled), the
operation is invoked zero times (no timing sample is collected), and
the returned averageTime is the NaN of 0/0 with minTime Infinity and
maxTime -Infinity. -/
theorem c2_zero_iterations (opTime : ℕ → ℚ) (memBefore memAfter : ℚ) :
    benchmark opTime 0 memBefore memAfter
      = { averageTime := JSNum.nan, minTime := JSNum.inf,
          maxTime := JSNum.neginf, memoryDelta := memAfter - memBefore,
          times := [] } :=
  rfl

/-- Fuel-indexed helper for countSub; the fuel tracks the length of the
remaining text, so the recursion is structural. -/
def countSubAux (pat : List Char) : ℕ → List Char → ℕ
  | 0, _ => 0
  | _ + 1, [] => 0
  | fuel + 1, c :: rest =>
      if pat.isPrefixOf (c :: rest) ∧ pat ≠ [] then
        1 + countSubAux pat fuel (rest.drop (pat.length - 1))
      else
        countSubAux pat fuel rest

/-- Non-overlapping occurrence count of a pattern in a character list,
modelling the length of a JS global regex match (used by exportReport's
totalOperations for the literal pattern Execution time:), scanning left
to right and skipping past each match. -/
def countSub (pat : List Char) (s : List Char) : ℕ :=
  countSubAux pat s.length s

/-- Whether the pattern occurs somewhere in the character list. -/
def containsSub (pat s : List Char) : Bool := !(countSub pat s == 0)

/-- The timestamp sanitisation of export-utils.js (lines 102 and 126):
each colon and dot of the ISO-8601 string replaced by a dash. -/
def sanitizeTs (iso : String) : String :=
  String.mk (iso.data.map (fun ch => if ch = ':' ∨ ch = '.' then '-' else ch))

/-- The summary part of an exported performance-data object (the shape
produced by PerformanceMonitor.getSummary that exportReport and the
report renderers read). -/
structure PerfSummaryData where
  totalOperations : ℕ
  averageExecutionTime : ℚ
  peakMemoryUsage : ℚ
deriving DecidableEq, Repr

/-- A performance-data object handed to the export helpers. -/
structure PerfData where
  summary : PerfSummaryData
  metrics : List Metric
deriving DecidableEq, Repr

/-- The summary block of a report (exportReport, lines 132-136). -/
structure ReportSummary where
  totalResults : ℕ
  totalOperations : ℕ
  averageExecutionTime : ℚ
deriving DecidableEq, Repr

/-- The report object built by ExportUtils.exportReport (lines 127-141):
title, generation time, the results array as given, the optional
performance data as given, and the derived summary. -/
structure Report where
  title : String
  timestamp : ℕ
  results : List ResultEntry
  performance : Option PerfData
  summary : ReportSummary
deriving DecidableEq, Repr

/-- The pattern counted by exportReport's totalOperations. -/
def execTimePat : List Char := "Execution time:".data

/-- Construction of the report object (exportReport, lines 127-141):
totalOperations counts Execution time: occurrences over the result
contents, and averageExecutionTime stays 0 unless performance data is
supplied. -/
def buildReport (results : List ResultEntry) (performanceData : Option PerfData)
    (now : ℕ) : Report :=
  let base : ReportSummary :=
    { totalResults := results.length,
      totalOperations :=
        results.foldl (fun acc r => acc + countSub execTimePat r.content.data) 0,
      averageExecutionTime := 0 }
  let summ :=
    match performanceData with
    | some p => { base with averageExecutionTime := p.summary.averageExecutionTime }
    | none => base
  { title := "TensorFlow.js Learning Platform Report", timestamp := now,
    results := results, performance := performanceData, summary := summ }

/-- Opaque stand-in for the number formatting (toFixed) used by the
text and HTML renderers. -/
def fmtQ (q : ℚ) : String := toString q.num ++ "/" ++ toString q.den

/-- The optional performance block of the text report (exportTextReport,
lines 224-229): empty when no performance data is present. -/
def renderPerfText : Option PerfData → String
  | none => ""
  | some p =>
      "=== PERFORMANCE SUMMARY ===\n"
        ++ "Total Operations: " ++ toString p.summary.totalOperations ++ "\n"
        ++ "Average Execution Time: " ++ fmtQ p.summary.averageExecutionTime ++ "ms\n"
        ++ "Peak Memory Usage: " ++ fmtQ (p.summary.peakMemoryUsage / 1024) ++ " KB\n"

/-- ExportUtils.exportTextReport (lines 211-233): header lines, one
block per result, then the optional performance block. -/
def renderTextReport (r : Report) : String :=
  r.title ++ "\n"
    ++ "Generated: " ++ toString r.timestamp ++ "\n"
    ++ "Total Results: " ++ toString r.summary.totalResults ++ "\n"
    ++ "Total Operations: " ++ toString r.summary.totalOperations ++ "\n"
    ++ "Average Execution Time: " ++ fmtQ r.summary.averageExecutionTime ++ "ms\n\n"
    ++ String.join (r.results.map (fun res =>
        "=== " ++ res.title ++ " ===\n"
          ++ "Timestamp: " ++ toString res.timestamp ++ "\n"
          ++ res.content ++ "\n\n"))
    ++ renderPerfText r.performance

/-- The optional performance block of the HTML report (exportHTMLReport,
lines 191-198): the empty string when no performance data is present. -/
def renderPerfHtml : Option PerfData → String
  | none => ""
  | some p =>
      "<div class=\"performance\"><h3>Performance Summary</h3>"
        ++ "<p>Total Operations: " ++ toString p.summary.totalOperations ++ "</p>"
        ++ "<p>Average Execution Time: " ++ fmtQ p.summary.averageExecutionTime ++ "ms</p>"
        ++ "<p>Peak Memory Usage: " ++ fmtQ (p.summary.peakMemoryUsage / 1024) ++ " KB</p></div>"

/-- ExportUtils.exportHTMLReport (lines 160-204), with the static style
header abstracted: document head, header block, one styled block per
result, then the optional performance block. -/
def renderHtmlReport (r : Report) : String :=
  "<html><head><title>" ++ r.title ++ "</title></head><body>"
    ++ "<div class=\"header\"><h1>" ++ r.title ++ "</h1>"
    ++ "<p>Generated: " ++ toString r.timestamp ++ "</p>"
    ++ "<p>Total Results: " ++ toString r.summary.totalResults ++ "</p>"
    ++ "<p>Total Operations: " ++ toString r.summary.totalOperations ++ "</p>"
    ++ "<p>Average Execution Time: " ++ fmtQ r.summary.averageExecutionTime ++ "ms</p></div>"
    ++ String.join (r.results.map (fun res =>
        "<div class=\"result\"><h3>" ++ res.title ++ "</h3>"
          ++ "<p>Timestamp: " ++ toString res.timestamp ++ "</p>"
          ++ "<pre>" ++ res.content ++ "</pre></div>"))
    ++ renderPerfHtml r.performance
    ++ "</body></html>"

/-- The formats accepted by exportReport (line 125). -/
inductive ReportFormat where
  | json : ReportFormat
  | html : ReportFormat
  | txt : ReportFormat
deriving DecidableEq, Repr

/-- The payload handed to the download sink: a structured report for
JSON serialisation, rendered text, or structured lists for the JSON
exports of the other helpers. -/
inductive ExportPayload where
  | jsonReport : Report → ExportPayload
  | text : String → ExportPayload
  | jsonPerf : PerfData → ExportPayload
  | jsonResults : List ResultEntry → ExportPayload
deriving DecidableEq, Repr

/-- What reaches the download sink: a suggested filename plus payload. -/
structure ExportFile where
  filename : String
  payload : ExportPayload
deriving DecidableEq, Repr

/-- ExportUtils.exportReport (lines 125-153): build the report, then
dispatch on the format; every filename embeds the sanitised ISO
timestamp. The function throws nothing: every access to the optional
performance data is guarded in the source. -/
def exportReport (results : List ResultEntry) (performanceData : Option PerfData)
    (format : ReportFormat) (now : ℕ) (iso : String) : ExportFile :=
  let ts := sanitizeTs iso
  let report := buildReport results performanceData now
  match format with
  | ReportFormat.html =>
      { filename := "report-" ++ ts ++ ".html",
        payload := ExportPayload.text (renderHtmlReport report) }
  | ReportFormat.txt =>
      { filename := "report-" ++ ts ++ ".txt",
        payload := ExportPayload.text (renderTextReport report) }
  | ReportFormat.json =>
      { filename := "report-" ++ ts ++ ".json",
        payload := ExportPayload.jsonReport report }

/-- The formats accepted by exportPerformanceData (line 101). -/
inductive PerfFormat where
  | json : PerfFormat
  | csv : PerfFormat
deriving DecidableEq, Repr

/-- The csv row projected from one metric by exportPerformanceData
(lines 105-112) and rendered by exportCSV (lines 29-36); string values
are quoted, numbers are not. -/
def metricCsvRow (m : Metric) : String :=
  "\"" ++ m.operation ++ "\"," ++ fmtQ m.executionTime ++ ","
    ++ fmtQ m.memoryBefore ++ "," ++ fmtQ m.memoryAfter ++ ","
    ++ fmtQ m.memoryDelta ++ "," ++ toString m.timestamp

/-- The csv header produced from the keys of the projected row objects. -/
def metricCsvHeader : String :=
  "operation,executionTime,memoryBefore,memoryAfter,memoryDelta,timestamp"

/-- ExportUtils.exportCSV (lines 23-40): with an empty data array it
logs an error and returns without downloading anything; otherwise it
joins the header and rows and hands the file to the sink. -/
def exportCSVFile (rows : List String) (filename : String) : Option ExportFile :=
  match rows with
  | [] => none
  | _ =>
      some { filename := filename,
             payload := ExportPayload.text
               (String.intercalate "\n" (metricCsvHeader :: rows)) }

/-- ExportUtils.exportPerformanceData (lines 101-117): csv goes through
exportCSV (possibly aborting on empty data), json always downloads the
whole performance-data object. -/
def exportPerformanceData (perf : PerfData) (format : PerfFormat)
    (iso : String) : Option ExportFile :=
  match format with
  | PerfFormat.csv =>
      exportCSVFile (perf.metrics.map metricCsvRow)
        ("performance-" ++ sanitizeTs iso ++ ".csv")
  | PerfFormat.json =>
      some { filename := "performance-" ++ sanitizeTs iso ++ ".json",
             payload := ExportPayload.jsonPerf perf }

/-- The exportResults handler of the demo page (demo script lines
440-449): serialises the results array and downloads it under the fixed
name tensor-operations-results.json, with no timestamp of any kind. -/
def exportResults (results : List ResultEntry) : ExportFile :=
  { filename := "tensor-operations-results.json",
    payload := ExportPayload.jsonResults results }

/-- C8: a report exported with no performance data never fails — the
model's report construction and renderers are total because every read
of the optional performance data in the source is guarded — its
performance field is null, its results array keeps the length of the
input list, the json payload carries exactly that report, and both the
text and the HTML renderer emit an empty performance section for it. -/
theorem c8_report_degrades (results : List ResultEntry) (now : ℕ) (iso : String) :
    (buildReport results none now).performance = none
    ∧ (buildReport results none now).results.length = results.length
    ∧ (exportReport results none ReportFormat.json now iso).payload
        = ExportPayload.jsonReport (buildReport results none now)
    ∧ renderPerfText (buildReport results none now).performance = ""
    ∧ renderPerfHtml (buildReport results none now).performance = "" :=
  ⟨rfl, rfl, rfl, rfl, rfl⟩

/-- Counterexample to C9: the demo page's exportResults handler is an
export operation whose filename is the fixed string
tensor-operations-results.json, which does not embed the sanitised
ISO-8601 timestamp of the export (shown here against a concrete
timestamp: the sanitised form occurs nowhere in the filename). -/
theorem c9_filename_counterexample :
    (exportResults []).filename = "tensor-operations-results.json"
    ∧ containsSub (sanitizeTs "2025-03-04T05:06:07.890Z").data
        (exportResults []).filename.data = false :=
  ⟨rfl, by decide⟩

/-- C9 as amended: exportReport and exportPerformanceData do embed the
sanitised ISO timestamp (colons and dots replaced by dashes) in every
filename they produce, but the demo page's exportResults always uses the
fixed timestamp-free filename tensor-operations-results.json. -/
theorem c9_filenames (results : List ResultEntry)
    (performanceData : Option PerfData) (perf : PerfData)
    (rfmt : ReportFormat) (pfmt : PerfFormat) (now : ℕ) (iso : String) :
    (∃ ext, (exportReport results performanceData rfmt now iso).filename
        = "report-" ++ sanitizeTs iso ++ ext)
    ∧ (∀ f, exportPerformanceData perf pfmt iso = some f →
        ∃ ext, f.filename = "performance-" ++ sanitizeTs iso ++ ext)
    ∧ (exportResults results).filename = "tensor-operations-results.json" := by
  refine ⟨?_, ?_, rfl⟩
  · cases rfmt with
    | json => exact ⟨".json", rfl⟩
    | html => exact ⟨".html", rfl⟩
    | txt => exact ⟨".txt", rfl⟩
  · intro f hf
    cases pfmt with
    | json =>
        refine ⟨".json", ?_⟩
        simp [exportPerformanceData] at hf
        rw [← hf]
    | csv =>
        refine ⟨".csv", ?_⟩
        unfold exportPerformanceData exportCSVFile at hf
        rcases hrows : perf.metrics.map metricCsvRow with _ | ⟨r, rest⟩
        · rw [hrows] at hf
          simp at hf
        · rw [hrows] at hf
          simp at hf
          rw [← hf]

/-- Witness for C9 at a concrete json performance export. -/
theorem c9_filenames_witness :
    ∃ ext,
      (ExportFile.filename
        { filename := "performance-"
            ++ sanitizeTs "2025-03-04T05:06:07.890Z" ++ ".json",
          payload := ExportPayload.jsonPerf
            { summary := { totalOperations := 0, averageExecutionTime := 0,
                           peakMemoryUsage := 0 }, metrics := [] } })
        = "performance-" ++ sanitizeTs "2025-03-04T05:06:07.890Z" ++ ext :=
  (c9_filenames [] none
    { summary := { totalOperations := 0, averageExecutionTime := 0,
                   peakMemoryUsage := 0 }, metrics := [] }
    ReportFormat.json PerfFormat.json 0 "2025-03-04T05:06:07.890Z").2.1 _ rfl
